import Mathlib

/-!
Shallow embedding of the street-view-mcp repository (Python sources
`street_view.py`, `server.py`, `main.py`) for checking its natural-language
specification.

Modelling conventions:
* Python `float` values are modelled exactly: finite values in decimal
  scientific form (mantissa and power of ten, with a rational-valued
  denotation), plus the special values produced by `float("inf")` /
  `float("nan")`. No claim under verification depends on binary rounding.
* The HTTP layer is modelled by an oracle `http : params → HttpResponse`;
  each fetch records the parameter maps of the outbound GET requests it
  actually issues, so "no request is issued" is the recorded list being `[]`.
* A missing `content-type` header and an empty one coincide, exactly as in
  the source, which reads `response.headers.get('content-type', '')`.
* PIL image decoding and JSON decoding are abstracted: a decoded image or
  JSON document is represented by the raw response body bytes.
* The filesystem is an association list from path to content; `image.save`
  in the source overwrites unconditionally and is modelled the same way.
-/

namespace StreetViewMcp

/-- Error kinds of the wrapper, using the specification's vocabulary.
In the Python source these are `ValueError` (invalidInput, alreadyExists,
notFound), generic `Exception` (upstreamHttp, upstreamFormat) and the
interpreter's `TypeError`. -/
inductive Err where
  | invalidInput : String → Err
  | upstreamHttp : Nat → Err
  | upstreamFormat : Err
  | alreadyExists : String → Err
  | notFound : String → Err
  | typeError : String → Err
deriving Repr, DecidableEq

/-- A Python `float` value: finite values in exact decimal scientific form
`finite m e` denoting `m * 10 ^ e` (decimal literals are represented exactly;
no claim under verification depends on binary rounding or on identifying
distinct literals of equal value), signed infinity, or nan. -/
inductive PyFloat where
  | finite : Int → Int → PyFloat
  | infty : Bool → PyFloat
  | nan : PyFloat
deriving Repr, DecidableEq

/-- The rational value denoted by a finite `PyFloat`. -/
def PyFloat.toRat : PyFloat → Option ℚ
  | .finite m e => some ((m : ℚ) * (10 : ℚ) ^ e)
  | _ => none

instance {ε α : Type} [DecidableEq ε] [DecidableEq α] :
    DecidableEq (Except ε α) := fun x y =>
  match x, y with
  | .ok a, .ok b =>
    if h : a = b then .isTrue (h ▸ rfl) else .isFalse (fun c => h (Except.ok.inj c))
  | .error a, .error b =>
    if h : a = b then .isTrue (h ▸ rfl)
    else .isFalse (fun c => h (Except.error.inj c))
  | .ok _, .error _ => .isFalse (fun c => Except.noConfusion c)
  | .error _, .ok _ => .isFalse (fun c => Except.noConfusion c)

/-- A value stored in a request parameter map (Python dict values here are
strings or ints). -/
inductive PVal where
  | str : String → PVal
  | int : Int → PVal
deriving Repr, DecidableEq

/-- A request parameter map, in insertion order, as built by the source. -/
abbrev Params := List (String × PVal)

/-- The keys of a parameter map. -/
def keys (ps : Params) : List String := ps.map Prod.fst

/-- Python `del params[k]`: remove the entry with key `k`. -/
def eraseKey (k : String) (ps : Params) : Params :=
  ps.filter (fun p => p.1 != k)

/-- Python truthiness of an `Optional[str]`: `None` and `""` are falsy. -/
def truthyOptStr : Option String → Bool
  | some s => !s.isEmpty
  | none => false

/-- Python `s.startswith(pre)` (structural character-list implementation). -/
def strStartsWith (s pre : String) : Bool := pre.toList.isPrefixOf s.toList

/-- Python `s.endswith(suf)` (structural character-list implementation). -/
def strEndsWith (s suf : String) : Bool := suf.toList.isSuffixOf s.toList

/-- The count `sum(1 for m in [location, lat_lng, pano_id] if m is not None)`
from `street_view.py` (used identically at lines 55 and 121). -/
def locationMethodCount (location : Option String)
    (lat_lng : Option (PyFloat × PyFloat)) (pano_id : Option String) : Nat :=
  (if location.isSome then 1 else 0) + (if lat_lng.isSome then 1 else 0) +
    (if pano_id.isSome then 1 else 0)

/-- Rendering of a float into the `location` query value, modelling
`f"{lat_lng[0]},{lat_lng[1]}"`. Finite values are rendered in scientific
form; no claim depends on this string. -/
def pyFloatStr : PyFloat → String
  | .finite m e => toString m ++ "e" ++ toString e
  | .infty b => if b then "-inf" else "inf"
  | .nan => "nan"

/-- The `"lat,lng"` string interpolated into the request parameters. -/
def latLngStr (p : PyFloat × PyFloat) : String :=
  pyFloatStr p.1 ++ "," ++ pyFloatStr p.2

/-- An upstream HTTP response: status code, the `content-type` header (empty
string when absent, as in `headers.get('content-type', '')`), and body bytes. -/
structure HttpResponse where
  status : Nat
  contentType : String
  body : List Nat
deriving Repr, DecidableEq

/-- Result of a fetch together with the parameter maps of the outbound GET
requests that were issued before returning. -/
structure Outcome (α : Type) where
  result : Except Err α
  requests : List Params

/-- Validation and parameter building of `get_street_view_image`
(`street_view.py` lines 54-83): exactly-one-specifier check, the base
parameter dict, then the `if location / elif lat_lng / elif pano_id`
truthiness chain, deleting `radius` on the pano branch. -/
def buildImageParams (api_key : String) (location : Option String)
    (lat_lng : Option (PyFloat × PyFloat)) (pano_id : Option String)
    (size : String) (heading pitch fov radius : Int) (source : String)
    (return_error_code : Bool) : Except Err Params :=
  if locationMethodCount location lat_lng pano_id = 0 then
    .error (.invalidInput "Must provide one of: location, lat_lng, or pano_id")
  else if locationMethodCount location lat_lng pano_id > 1 then
    .error (.invalidInput "Provide only one of: location, lat_lng, or pano_id")
  else
    let params : Params :=
      [("size", .str size), ("heading", .int heading), ("pitch", .int pitch),
       ("fov", .int fov), ("radius", .int radius), ("source", .str source),
       ("return_error_code", .str (if return_error_code then "true" else "false")),
       ("key", .str api_key)]
    let params :=
      if truthyOptStr location then
        params ++ [("location", .str (location.getD ""))]
      else if lat_lng.isSome then
        params ++ [("location", .str (latLngStr (lat_lng.getD (.nan, .nan))))]
      else if truthyOptStr pano_id then
        eraseKey "radius" (params ++ [("pano", .str (pano_id.getD ""))])
      else params
    .ok params

/-- `get_street_view_image` (`street_view.py` lines 20-93): validate and build
parameters, issue the GET, then on status 200 return the image body when the
content type starts with `image/`, fail with `upstreamFormat` otherwise, and
fail with `upstreamHttp` carrying the status on any non-200 status. -/
def get_street_view_image (http : Params → HttpResponse) (api_key : String)
    (location : Option String) (lat_lng : Option (PyFloat × PyFloat))
    (pano_id : Option String) (size : String) (heading pitch fov radius : Int)
    (source : String) (return_error_code : Bool) : Outcome (List Nat) :=
  match buildImageParams api_key location lat_lng pano_id size heading pitch
      fov radius source return_error_code with
  | .error e => ⟨.error e, []⟩
  | .ok ps =>
    let r := http ps
    ⟨if r.status = 200 then
        if strStartsWith r.contentType "image/" then .ok r.body
        else .error .upstreamFormat
      else .error (.upstreamHttp r.status), [ps]⟩

/-- Validation and parameter building of `get_panorama_metadata`
(`street_view.py` lines 120-144): same exactly-one check, a smaller base
dict, and the same truthiness chain with `radius` deleted on the pano branch. -/
def buildMetadataParams (api_key : String) (location : Option String)
    (lat_lng : Option (PyFloat × PyFloat)) (pano_id : Option String)
    (radius : Int) (source : String) : Except Err Params :=
  if locationMethodCount location lat_lng pano_id = 0 then
    .error (.invalidInput "Must provide one of: location, lat_lng, or pano_id")
  else if locationMethodCount location lat_lng pano_id > 1 then
    .error (.invalidInput "Provide only one of: location, lat_lng, or pano_id")
  else
    let params : Params :=
      [("radius", .int radius), ("source", .str source), ("key", .str api_key)]
    let params :=
      if truthyOptStr location then
        params ++ [("location", .str (location.getD ""))]
      else if lat_lng.isSome then
        params ++ [("location", .str (latLngStr (lat_lng.getD (.nan, .nan))))]
      else if truthyOptStr pano_id then
        eraseKey "radius" (params ++ [("pano", .str (pano_id.getD ""))])
      else params
    .ok params

/-- `get_panorama_metadata` (`street_view.py` lines 96-151): on status 200
return the parsed JSON (modelled as the body bytes), otherwise fail with
`upstreamHttp` carrying the status code. -/
def get_panorama_metadata (http : Params → HttpResponse) (api_key : String)
    (location : Option String) (lat_lng : Option (PyFloat × PyFloat))
    (pano_id : Option String) (radius : Int) (source : String) :
    Outcome (List Nat) :=
  match buildMetadataParams api_key location lat_lng pano_id radius source with
  | .error e => ⟨.error e, []⟩
  | .ok ps =>
    let r := http ps
    ⟨if r.status = 200 then .ok r.body
      else .error (.upstreamHttp r.status), [ps]⟩

/-- The filesystem for saved images: path to content bytes, newest entry first. -/
abbrev FS := List (String × List Nat)

/-- Lookup of a path in the image filesystem. -/
def fsLookup (fs : FS) (p : String) : Option (List Nat) := List.lookup p fs

/-- Writing a file, overwriting any existing entry (as `image.save` does). -/
def fsWrite (fs : FS) (p : String) (b : List Nat) : FS :=
  (p, b) :: fs.filter (fun e => e.1 != p)

/-- Result of an operation that may also touch the filesystem. -/
structure SideOutcome (α : Type) where
  result : Except Err α
  requests : List Params
  fs : FS

/-- `save_street_view_image` (`street_view.py` lines 154-194): fetch the
image, create the output directory, then `image.save(output_path)` and return
the path. The source performs no existence check: an existing file at
`output_path` is overwritten. -/
def save_street_view_image (fs : FS) (http : Params → HttpResponse)
    (api_key : String) (output_path : String) (location : Option String)
    (lat_lng : Option (PyFloat × PyFloat)) (pano_id : Option String)
    (size : String) (heading pitch fov radius : Int) (source : String)
    (return_error_code : Bool) : SideOutcome String :=
  let o := get_street_view_image http api_key location lat_lng pano_id size
    heading pitch fov radius source return_error_code
  match o.result with
  | .error e => ⟨.error e, o.requests, fs⟩
  | .ok img => ⟨.ok output_path, o.requests, fsWrite fs output_path img⟩

/-! ### Python `float(str)` parsing

`lat, lng = map(float, s.split(','))` appears in `server.py` (twice) and in
the CLI `main`. The recognizer below follows the CPython grammar for
`float(str)`: surrounding whitespace stripped, an optional sign, then either
`inf`/`infinity`/`nan` case-insensitively or a decimal literal
`digitpart [. [digitpart]] [(e|E) [sign] digitpart]` with at least one digit
before the exponent, where a digitpart is digits with single underscores
strictly between digits. ASCII digits are modelled. -/

/-- Strip leading and trailing whitespace, as `float()` does to its input. -/
def stripWs (cs : List Char) : List Char :=
  ((cs.dropWhile Char.isWhitespace).reverse.dropWhile Char.isWhitespace).reverse

/-- Consume an optional leading sign; `true` means negative. -/
def parseSign : List Char → Bool × List Char
  | '+' :: cs => (false, cs)
  | '-' :: cs => (true, cs)
  | cs => (false, cs)

/-- Greedily consume `digit (["_"] digit)*` after an initial digit, returning
the digits (underscores removed) and the rest. A trailing or doubled
underscore is left unconsumed, so it later fails the leftover-input check. -/
def digitpartAux : List Char → List Char × List Char
  | c :: d :: cs =>
    if c.isDigit then
      let r := digitpartAux (d :: cs)
      (c :: r.1, r.2)
    else if c = '_' ∧ d.isDigit then
      let r := digitpartAux cs
      (d :: r.1, r.2)
    else ([], c :: d :: cs)
  | [c] => if c.isDigit then ([c], []) else ([], [c])
  | [] => ([], [])

/-- Consume a digitpart if one starts here (first char must be a digit),
otherwise consume nothing. -/
def takeDigitpart (cs : List Char) : List Char × List Char :=
  match cs with
  | c :: _ => if c.isDigit then digitpartAux cs else ([], cs)
  | [] => ([], cs)

/-- Numeric value of a digit string. -/
def digitsToNat (ds : List Char) : Nat :=
  ds.foldl (fun acc c => 10 * acc + (c.toNat - 48)) 0

/-- Split off the integer digitpart and, after a dot, the fraction digitpart. -/
def splitIntFrac (cs : List Char) : List Char × List Char × List Char :=
  let p1 := takeDigitpart cs
  match p1.2 with
  | '.' :: cs2 =>
    let p2 := takeDigitpart cs2
    (p1.1, p2.1, p2.2)
  | _ => (p1.1, [], p1.2)

/-- Consume an optional exponent `("e"|"E") [sign] digitpart`; a bare `e`
without digits fails. -/
def parseExp : List Char → Option (Int × List Char)
  | [] => some (0, [])
  | c :: cs =>
    if c = 'e' ∨ c = 'E' then
      let sp := parseSign cs
      let dp := takeDigitpart sp.2
      match dp.1 with
      | [] => none
      | _ => some
          ((if sp.1 then -(digitsToNat dp.1 : Int) else (digitsToNat dp.1 : Int)),
            dp.2)
    else some (0, c :: cs)

/-- Exact value of a parsed decimal literal, in scientific form: the digits
of the integer and fraction parts form the mantissa, and the written exponent
is lowered by the number of fraction digits. -/
def pyFloatOfParts (neg : Bool) (ip fp : List Char) (e : Int) : PyFloat :=
  .finite
    (if neg then -(digitsToNat (ip ++ fp) : Int) else (digitsToNat (ip ++ fp) : Int))
    (e - fp.length)

/-- Python `float(s)`: `some` value on the strings `float` accepts, `none` on
the strings where it raises `ValueError`. -/
def pyFloat? (s : String) : Option PyFloat :=
  let cs := stripWs s.toList
  match cs with
  | [] => none
  | _ =>
    let sp := parseSign cs
    let low := sp.2.map Char.toLower
    if low = "inf".toList ∨ low = "infinity".toList then some (.infty sp.1)
    else if low = "nan".toList then some .nan
    else
      let t := splitIntFrac sp.2
      if t.1 = [] ∧ t.2.1 = [] then none
      else
        match parseExp t.2.2 with
        | some (e, []) => some (pyFloatOfParts sp.1 t.1 t.2.1 e)
        | _ => none

/-- Splitting on a separator character, accumulating the current segment. -/
def splitOnCharAux (sep : Char) : List Char → List Char → List String
  | [], acc => [String.mk acc.reverse]
  | c :: cs, acc =>
    if c = sep then String.mk acc.reverse :: splitOnCharAux sep cs []
    else splitOnCharAux sep cs (c :: acc)

/-- Python `s.split(',')`: `""` gives `[""]`, and every comma separates,
so `"a,,b"` gives `["a", "", "b"]`. -/
def pySplitComma (s : String) : List String := splitOnCharAux ',' s.toList []

/-- The coordinate-parsing block `lat, lng = map(float, s.split(','))` inside
a `try` whose `except (ValueError, TypeError)` re-raises a single
`ValueError` with message `msg`. Every failure mode of the Python block — a
part that is not a float, fewer than two parts, or more than two parts — is a
`ValueError` caught by that handler, so all collapse to the one error. -/
def parseLatLngWith (msg : String) (s : String) :
    Except Err (PyFloat × PyFloat) :=
  match pySplitComma s with
  | [x, y] =>
    match pyFloat? x, pyFloat? y with
    | some a, some b => .ok (a, b)
    | _, _ => .error (.invalidInput msg)
  | _ => .error (.invalidInput msg)

/-- The coordinate parser of the `get_street_view` and `get_metadata` tools
(`server.py` lines 56-63 and 109-116). -/
def parseLatLng : String → Except Err (PyFloat × PyFloat) :=
  parseLatLngWith "Invalid lat_lng format. Use format: 40.714728,-73.998672"

/-- The coordinate parser of the CLI `main` (`street_view.py` lines 250-257). -/
def cliParseLatLng : String → Except Err (PyFloat × PyFloat) :=
  parseLatLngWith
    "Invalid latitude,longitude format. Use format: 40.714728,-73.998672"

/-! ### The MCP tool surface (`server.py`) -/

/-- The parameter names accepted by `get_street_view_image`
(`street_view.py` lines 20-31). The def has no `**kwargs`, so a keyword
argument outside this list makes the call raise `TypeError`. -/
def get_street_view_image_kwargs : List String :=
  ["location", "lat_lng", "pano_id", "size", "heading", "pitch", "fov",
   "radius", "source", "return_error_code"]

/-- The keyword arguments the `get_street_view` tool passes to
`get_street_view_image` (`server.py` lines 66-78), including `filename`. -/
def server_call_kwargs : List String :=
  ["location", "lat_lng", "pano_id", "size", "heading", "pitch", "fov",
   "radius", "source", "return_error_code", "filename"]

/-- The `get_street_view` tool (`server.py` lines 22-86): parse the `lat_lng`
string if truthy, then call `get_street_view_image` by keyword. The Python
call-binding check is modelled explicitly: if any passed keyword is not a
parameter of the callee, the interpreter raises `TypeError` before the callee
body runs, so no request is issued and the filesystem is untouched. -/
def server_get_street_view (fs : FS) (http : Params → HttpResponse)
    (api_key : String) (filename : String) (location lat_lng pano_id : Option String)
    (size : String) (heading pitch fov radius : Int) (source : String) :
    SideOutcome (List Nat) :=
  match (if truthyOptStr lat_lng then (parseLatLng (lat_lng.getD "")).map some
      else .ok none) with
  | .error e => ⟨.error e, [], fs⟩
  | .ok lat_lng_tuple =>
    if server_call_kwargs.all (fun k => get_street_view_image_kwargs.contains k) then
      let o := get_street_view_image http api_key location lat_lng_tuple pano_id
        size heading pitch fov radius source true
      ⟨o.result, o.requests, fs⟩
    else
      ⟨.error (.typeError
          "get_street_view_image got an unexpected keyword argument filename"),
        [], fs⟩

/-- The filesystem of the `html/` directory: filename to file content. -/
abbrev HtmlFS := List (String × String)

/-- Lookup of a filename in the HTML filesystem. -/
def htmlLookup (fs : HtmlFS) (p : String) : Option String := List.lookup p fs

/-- Filename normalization of `create_html_page` (`server.py` lines 240-241):
append `.html` unless already present. -/
def normHtmlFilename (f : String) : String :=
  if strEndsWith f ".html" then f else f ++ ".html"

/-- The fixed boilerplate before the title (from the template literal at
`server.py` lines 257-294; `\x7b\x7b` in the Python format string renders as
a single literal brace). -/
def htmlPre : String :=
  "<!DOCTYPE html>\n<html lang=\"en\">\n<head>\n    <meta charset=\"UTF-8\">\n    <meta name=\"viewport\" content=\"width=device-width, initial-scale=1.0\">\n    <title>"

/-- The fixed boilerplate between the title and the content. -/
def htmlMid : String :=
  "</title>\n    <style>\n        body \x7b\n            font-family: Arial, sans-serif;\n            line-height: 1.6;\n            max-width: 800px;\n            margin: 0 auto;\n            padding: 20px;\n            color: #333;\n        \x7d\n        img \x7b\n            max-width: 100%;\n            height: auto;\n            border-radius: 5px;\n            margin: 20px 0;\n        \x7d\n        h1, h2, h3 \x7b\n            color: #2c3e50;\n        \x7d\n        .location \x7b\n            font-weight: bold;\n            margin-bottom: 5px;\n        \x7d\n        .description \x7b\n            margin-bottom: 30px;\n        \x7d\n    </style>\n</head>\n<body>\n"

/-- The fixed boilerplate after the content. -/
def htmlPost : String := "\n</body>\n</html>\n"

/-- `html_template.format(title=title, content=content)`: the boilerplate with
the title and content placeholders filled. -/
def htmlTemplate (title content : String) : String :=
  htmlPre ++ title ++ htmlMid ++ content ++ htmlPost

/-- Result of the HTML-assembly tool together with the HTML filesystem. -/
structure HtmlOutcome where
  result : Except Err String
  fs : HtmlFS

/-- `create_html_page` (`server.py` lines 156-307): normalize the filename,
fail with the already-exists `ValueError` when the target is present (before
any write), otherwise join the elements with newlines, fill the template, and
write the file. Browser opening is a side effect outside the model. -/
def create_html_page (fs : HtmlFS) (html_elements : List String)
    (filename : String) (title : String) : HtmlOutcome :=
  let fn := normHtmlFilename filename
  if (htmlLookup fs fn).isSome then
    ⟨.error (.alreadyExists fn), fs⟩
  else
    let content := String.intercalate "\n" html_elements
    ⟨.ok fn, (fn, htmlTemplate title content) :: fs⟩

/-! ### The CLI surface (`street_view.py main`) -/

/-- The parsed command-line arguments of the CLI tool (`street_view.py`
lines 224-246). `option` values are `some` exactly when the flag was given. -/
structure CliArgs where
  address : Option String
  latlong : Option String
  pano : Option String
  output : String
  size : String
  heading : Int
  pitch : Int
  fov : Int
  radius : Int
  source : String
  openAfter : Bool
  metadata : Bool

/-- Number of flags given from the required mutually exclusive group
`--address | --latlong | --pano`. -/
def cliFlagCount (a : CliArgs) : Nat :=
  (if a.address.isSome then 1 else 0) + (if a.latlong.isSome then 1 else 0) +
    (if a.pano.isSome then 1 else 0)

/-- `argparse` handling of the required mutually exclusive location group:
when zero or more than one of the three flags is supplied, `parse_args`
calls `parser.error`, which prints usage to stderr and exits the process
with status 2 before `main`'s `try` block is reached. -/
def cli_parse_args (a : CliArgs) : Except Nat CliArgs :=
  if cliFlagCount a = 1 then .ok a else .error 2

/-- The body of `main`'s `try` block (`street_view.py` lines 248-304): parse
`--latlong` when truthy, then either fetch metadata or fetch and save the
image. Returns the updated image filesystem on success; any raised error
propagates to the `except` clause. -/
def cli_body (fs : FS) (http : Params → HttpResponse) (api_key : String)
    (a : CliArgs) : Except Err FS :=
  match (if truthyOptStr a.latlong then (cliParseLatLng (a.latlong.getD "")).map some
      else .ok none) with
  | .error e => .error e
  | .ok lat_lng =>
    if a.metadata then
      match (get_panorama_metadata http api_key a.address lat_lng a.pano
          a.radius a.source).result with
      | .ok _ => .ok fs
      | .error e => .error e
    else
      let s := save_street_view_image fs http api_key a.output a.address
        lat_lng a.pano a.size a.heading a.pitch a.fov a.radius a.source true
      match s.result with
      | .ok _ => .ok s.fs
      | .error e => .error e

/-- The CLI entry point `main` (`street_view.py` lines 222-310) together with
`sys.exit(main())`: argparse errors exit with status 2; a raised error inside
the `try` block is printed to stderr and gives exit status 1; otherwise the
exit status is 0. Returns the exit status and the resulting filesystem. -/
def cli_main (fs : FS) (http : Params → HttpResponse) (api_key : String)
    (a : CliArgs) : Nat × FS :=
  match cli_parse_args a with
  | .error code => (code, fs)
  | .ok a2 =>
    match cli_body fs http api_key a2 with
    | .ok fs2 => (0, fs2)
    | .error _ => (1, fs)

/-! ### Claims -/

/-- C2: for every call to the image fetch or the metadata fetch in which zero
of the three location specifiers are non-null, or in which more than one of
them is non-null, the call fails with an InvalidInput error (ValueError) and
no outbound request is issued. -/
theorem c2_invalid_specifier_count (http : Params → HttpResponse)
    (api_key : String) (location : Option String)
    (lat_lng : Option (PyFloat × PyFloat)) (pano_id : Option String)
    (size : String) (heading pitch fov radius : Int) (source : String)
    (rc : Bool) (mradius : Int) (msource : String)
    (h : locationMethodCount location lat_lng pano_id = 0 ∨
      locationMethodCount location lat_lng pano_id > 1) :
    ((∃ msg, (get_street_view_image http api_key location lat_lng pano_id size
        heading pitch fov radius source rc).result = .error (.invalidInput msg)) ∧
      (get_street_view_image http api_key location lat_lng pano_id size heading
        pitch fov radius source rc).requests = []) ∧
    ((∃ msg, (get_panorama_metadata http api_key location lat_lng pano_id
        mradius msource).result = .error (.invalidInput msg)) ∧
      (get_panorama_metadata http api_key location lat_lng pano_id mradius
        msource).requests = []) := by
  rcases h with h0 | h1
  · simp [get_street_view_image, get_panorama_metadata, buildImageParams,
      buildMetadataParams, h0]
  · have h0 : ¬ locationMethodCount location lat_lng pano_id = 0 := by omega
    simp [get_street_view_image, get_panorama_metadata, buildImageParams,
      buildMetadataParams, h0, h1]

/-- C2 witness: zero specifiers on concrete remaining inputs. -/
theorem c2_invalid_specifier_count_witness :
    ((∃ msg, (get_street_view_image (fun _ => ⟨200, "image/jpeg", [1]⟩) "k" none
        none none "600x400" 0 0 90 50 "default" true).result =
          .error (.invalidInput msg)) ∧
      (get_street_view_image (fun _ => ⟨200, "image/jpeg", [1]⟩) "k" none none
        none "600x400" 0 0 90 50 "default" true).requests = []) ∧
    ((∃ msg, (get_panorama_metadata (fun _ => ⟨200, "image/jpeg", [1]⟩) "k" none
        none none 50 "default").result = .error (.invalidInput msg)) ∧
      (get_panorama_metadata (fun _ => ⟨200, "image/jpeg", [1]⟩) "k" none none
        none 50 "default").requests = []) :=
  c2_invalid_specifier_count (fun _ => ⟨200, "image/jpeg", [1]⟩) "k" none none
    none "600x400" 0 0 90 50 "default" true 50 "default" (Or.inl rfl)

/-- C3 counterexample: the empty string is a non-null `pano_id`, so by the
claim the outgoing request must not contain a `radius` key; but `elif
pano_id:` is False for `""`, so the radius-deletion branch is skipped and the
single issued request retains `radius` (and carries no `pano` key). -/
theorem c3_counterexample_empty_pano_keeps_radius :
    (some "" : Option String).isSome = true ∧
    (get_street_view_image (fun _ => ⟨404, "", []⟩) "k" none none (some "")
        "600x400" 0 0 90 50 "default" true).requests.map keys =
      [["size", "heading", "pitch", "fov", "radius", "source",
        "return_error_code", "key"]] ∧
    "radius" ∈ ["size", "heading", "pitch", "fov", "radius", "source",
        "return_error_code", "key"] := by
  refine ⟨rfl, rfl, by decide⟩

/-- C3 (amended to non-empty panorama ids): for every image-fetch or
metadata-fetch call whose location specifier is a non-empty panorama id (the
other two specifiers null), the outgoing request parameter map never contains
a `radius` key. -/
theorem c3_pano_request_has_no_radius (http : Params → HttpResponse)
    (api_key : String) (p : String) (size : String)
    (heading pitch fov radius : Int) (source : String) (rc : Bool)
    (mradius : Int) (msource : String) (hp : p ≠ "") :
    (get_street_view_image http api_key none none (some p) size heading pitch
        fov radius source rc).requests.map keys =
      [["size", "heading", "pitch", "fov", "source", "return_error_code",
        "key", "pano"]] ∧
    (get_panorama_metadata http api_key none none (some p) mradius
        msource).requests.map keys = [["source", "key", "pano"]] ∧
    "radius" ∉ ["size", "heading", "pitch", "fov", "source",
        "return_error_code", "key", "pano"] ∧
    "radius" ∉ ["source", "key", "pano"] := by
  have hpe : p.isEmpty = false := by
    cases he : p.isEmpty
    · rfl
    · exact absurd ((String.isEmpty_iff p).mp he) hp
  refine ⟨?_, ?_, by decide, by decide⟩ <;>
    simp [get_street_view_image, get_panorama_metadata, buildImageParams,
      buildMetadataParams, locationMethodCount, truthyOptStr, hpe, keys,
      eraseKey, List.filter]

/-- C3 witness: a concrete non-empty panorama id. -/
theorem c3_pano_request_has_no_radius_witness :
    (get_street_view_image (fun _ => ⟨404, "", []⟩) "k" none none
        (some "CAoSLEFGMVFpcE")
        "600x400" 0 0 90 50 "default" true).requests.map keys =
      [["size", "heading", "pitch", "fov", "source", "return_error_code",
        "key", "pano"]] ∧
    (get_panorama_metadata (fun _ => ⟨404, "", []⟩) "k" none none
        (some "CAoSLEFGMVFpcE") 50 "default").requests.map keys =
      [["source", "key", "pano"]] ∧
    "radius" ∉ ["size", "heading", "pitch", "fov", "source",
        "return_error_code", "key", "pano"] ∧
    "radius" ∉ ["source", "key", "pano"] :=
  c3_pano_request_has_no_radius (fun _ => ⟨404, "", []⟩) "k" "CAoSLEFGMVFpcE"
    "600x400" 0 0 90 50 "default" true 50 "default" (by decide)

/-- C4: for every image-fetch and metadata-fetch call with a valid single
location specifier, a non-200 upstream response makes the call fail with an
UpstreamHttpError carrying that status code, and this is the only possible
outcome for a non-200 response. -/
theorem c4_non_200_fails_upstream_http (resp : HttpResponse) (api_key : String)
    (location : Option String) (lat_lng : Option (PyFloat × PyFloat))
    (pano_id : Option String) (size : String) (heading pitch fov radius : Int)
    (source : String) (rc : Bool) (mradius : Int) (msource : String)
    (h1 : locationMethodCount location lat_lng pano_id = 1)
    (h2 : resp.status ≠ 200) :
    (get_street_view_image (fun _ => resp) api_key location lat_lng pano_id
        size heading pitch fov radius source rc).result =
      .error (.upstreamHttp resp.status) ∧
    (get_panorama_metadata (fun _ => resp) api_key location lat_lng pano_id
        mradius msource).result = .error (.upstreamHttp resp.status) := by
  constructor <;>
    simp [get_street_view_image, get_panorama_metadata, buildImageParams,
      buildMetadataParams, h1, h2]

/-- C4 witness: a 404 response on an address-specified call. -/
theorem c4_non_200_fails_upstream_http_witness :
    (get_street_view_image (fun _ => ⟨404, "text/html", []⟩) "k"
        (some "Empire State Building") none none "600x400" 0 0 90 50 "default"
        true).result = .error (.upstreamHttp 404) ∧
    (get_panorama_metadata (fun _ => ⟨404, "text/html", []⟩) "k"
        (some "Empire State Building") none none 50 "default").result =
      .error (.upstreamHttp 404) :=
  c4_non_200_fails_upstream_http ⟨404, "text/html", []⟩ "k"
    (some "Empire State Building") none none "600x400" 0 0 90 50 "default"
    true 50 "default" rfl (by decide)

/-- C5: for every image-fetch call with a valid single specifier whose
upstream response has status 200, the call returns the image bytes matching
the response body when the content type starts with `image/`, and fails with
UpstreamFormatError otherwise. -/
theorem c5_status_200_content_type (resp : HttpResponse) (api_key : String)
    (location : Option String) (lat_lng : Option (PyFloat × PyFloat))
    (pano_id : Option String) (size : String) (heading pitch fov radius : Int)
    (source : String) (rc : Bool)
    (h1 : locationMethodCount location lat_lng pano_id = 1)
    (h2 : resp.status = 200) :
    (strStartsWith resp.contentType "image/" = true →
      (get_street_view_image (fun _ => resp) api_key location lat_lng pano_id
        size heading pitch fov radius source rc).result = .ok resp.body) ∧
    (strStartsWith resp.contentType "image/" = false →
      (get_street_view_image (fun _ => resp) api_key location lat_lng pano_id
        size heading pitch fov radius source rc).result =
        .error .upstreamFormat) := by
  constructor <;> intro hct <;>
    simp [get_street_view_image, buildImageParams, h1, h2, hct]

/-- C5 witness: a 200 `image/jpeg` response returns the body, and a 200
`text/html` response fails with UpstreamFormatError. -/
theorem c5_status_200_content_type_witness :
    (get_street_view_image (fun _ => ⟨200, "image/jpeg", [7, 7, 7]⟩) "k"
        (some "Empire State Building") none none "600x400" 0 0 90 50 "default"
        true).result = .ok [7, 7, 7] ∧
    (get_street_view_image (fun _ => ⟨200, "text/html", [7, 7, 7]⟩) "k"
        (some "Empire State Building") none none "600x400" 0 0 90 50 "default"
        true).result = .error .upstreamFormat :=
  ⟨(c5_status_200_content_type ⟨200, "image/jpeg", [7, 7, 7]⟩ "k"
      (some "Empire State Building") none none "600x400" 0 0 90 50 "default"
      true rfl rfl).1 (by decide),
   (c5_status_200_content_type ⟨200, "text/html", [7, 7, 7]⟩ "k"
      (some "Empire State Building") none none "600x400" 0 0 90 50 "default"
      true rfl rfl).2 (by decide)⟩

/-- C1 (code bug): the spec and the `get_street_view` docstring require a
save under an already-present filename to fail with AlreadyExistsError and
perform no write, but `save_street_view_image` has no existence check: with
`output/test.jpg` already on disk holding `[1]` and a 200 image response with
body `[9, 9]`, the call succeeds and the existing file is overwritten. -/
theorem c1_save_overwrites_existing_file :
    fsLookup [("output/test.jpg", [1])] "output/test.jpg" = some [1] ∧
    (save_street_view_image [("output/test.jpg", [1])]
        (fun _ => ⟨200, "image/jpeg", [9, 9]⟩) "k" "output/test.jpg"
        (some "Empire State Building") none none "600x400" 0 0 90 50 "default"
        true).result = .ok "output/test.jpg" ∧
    (save_street_view_image [("output/test.jpg", [1])]
        (fun _ => ⟨200, "image/jpeg", [9, 9]⟩) "k" "output/test.jpg"
        (some "Empire State Building") none none "600x400" 0 0 90 50 "default"
        true).fs = [("output/test.jpg", [9, 9])] :=
  ⟨rfl, rfl, rfl⟩

/-- Behaviour of the shared coordinate-parsing block for an arbitrary error
message: success exactly on two comma-separated parts that both parse as
Python floats, the single InvalidInput `ValueError` otherwise. -/
theorem parseLatLngWith_spec (msg s : String) :
    (∀ x y a b, pySplitComma s = [x, y] → pyFloat? x = some a →
      pyFloat? y = some b → parseLatLngWith msg s = .ok (a, b)) ∧
    ((¬ ∃ x y a b, pySplitComma s = [x, y] ∧ pyFloat? x = some a ∧
        pyFloat? y = some b) →
      parseLatLngWith msg s = .error (.invalidInput msg)) := by
  constructor
  · intro x y a b hs hx hy
    simp [parseLatLngWith, hs, hx, hy]
  · intro h
    unfold parseLatLngWith
    split
    · rename_i x y heq
      split
      · rename_i a b hx hy
        exact absurd ⟨x, y, a, b, heq, hx, hy⟩ h
      · rfl
    · rfl

/-- C6: the coordinate parser yields the pair of floats obtained by splitting
on the comma when the string consists of exactly two comma-separated float
literals, and fails with InvalidInput otherwise; the claim's concrete
examples are included, for both the tool-surface parser and the CLI parser. -/
theorem c6_coordinate_parsing :
    (∀ s x y a b, pySplitComma s = [x, y] → pyFloat? x = some a →
      pyFloat? y = some b →
      parseLatLng s = .ok (a, b) ∧ cliParseLatLng s = .ok (a, b)) ∧
    (∀ s, (¬ ∃ x y a b, pySplitComma s = [x, y] ∧ pyFloat? x = some a ∧
        pyFloat? y = some b) →
      (∃ m, parseLatLng s = .error (.invalidInput m)) ∧
      (∃ m, cliParseLatLng s = .error (.invalidInput m))) ∧
    parseLatLng "40.748817,-73.985428" =
      .ok (.finite 40748817 (-6), .finite (-73985428) (-6)) ∧
    PyFloat.toRat (.finite 40748817 (-6)) = some (40748817 / 1000000) ∧
    PyFloat.toRat (.finite (-73985428) (-6)) = some (-(73985428 / 1000000)) ∧
    (∃ m, parseLatLng "abc,def" = .error (.invalidInput m)) := by
  refine ⟨?_, ?_, by decide, ?_, ?_,
    ⟨"Invalid lat_lng format. Use format: 40.714728,-73.998672", by decide⟩⟩
  · intro s x y a b hs hx hy
    exact ⟨(parseLatLngWith_spec _ s).1 x y a b hs hx hy,
      (parseLatLngWith_spec _ s).1 x y a b hs hx hy⟩
  · intro s h
    exact ⟨⟨_, (parseLatLngWith_spec _ s).2 h⟩, ⟨_, (parseLatLngWith_spec _ s).2 h⟩⟩
  · show some ((40748817 : ℚ) * (10 : ℚ) ^ (-6 : ℤ)) = _
    norm_num [zpow_neg]
  · show some ((-73985428 : ℚ) * (10 : ℚ) ^ (-6 : ℤ)) = _
    norm_num [zpow_neg]

/-- C6 witness: a concrete successful parse through the general statement. -/
theorem c6_coordinate_parsing_witness :
    parseLatLng "1.5,2.5" = .ok (.finite 15 (-1), .finite 25 (-1)) ∧
    cliParseLatLng "1.5,2.5" = .ok (.finite 15 (-1), .finite 25 (-1)) :=
  c6_coordinate_parsing.1 "1.5,2.5" "1.5" "2.5" (.finite 15 (-1))
    (.finite 25 (-1)) (by decide) (by decide) (by decide)

/-- C7: when the target file does not yet exist, HTML assembly writes the
fragments joined in their given order inside the fixed boilerplate with the
title filled in, and a second call with the same filename fails with
AlreadyExistsError without writing. -/
theorem c7_create_html_page (fs : HtmlFS) (els : List String)
    (filename title : String)
    (h : htmlLookup fs (normHtmlFilename filename) = none) :
    (create_html_page fs els filename title).result =
      .ok (normHtmlFilename filename) ∧
    (create_html_page fs els filename title).fs =
      (normHtmlFilename filename,
        htmlTemplate title (String.intercalate "\n" els)) :: fs ∧
    (∃ p q, htmlTemplate title (String.intercalate "\n" els) =
      p ++ String.intercalate "\n" els ++ q) ∧
    (create_html_page ((normHtmlFilename filename,
        htmlTemplate title (String.intercalate "\n" els)) :: fs) els filename
        title).result = .error (.alreadyExists (normHtmlFilename filename)) ∧
    (create_html_page ((normHtmlFilename filename,
        htmlTemplate title (String.intercalate "\n" els)) :: fs) els filename
        title).fs = (normHtmlFilename filename,
        htmlTemplate title (String.intercalate "\n" els)) :: fs := by
  have h' : List.lookup (normHtmlFilename filename) fs = none := h
  refine ⟨?_, ?_, ⟨htmlPre ++ title ++ htmlMid, htmlPost, rfl⟩, ?_, ?_⟩ <;>
    simp [create_html_page, htmlLookup, h', List.lookup, htmlTemplate]

/-- C7 witness: the claim's concrete example, with the two fragments visible
in order in the written file. -/
theorem c7_create_html_page_witness :
    normHtmlFilename "tour" = "tour.html" ∧
    ((create_html_page [] ["<h1>A</h1>", "<p>B</p>"] "tour"
        "Street View Tour").result = .ok (normHtmlFilename "tour") ∧
      (create_html_page [] ["<h1>A</h1>", "<p>B</p>"] "tour"
        "Street View Tour").fs = (normHtmlFilename "tour",
        htmlTemplate "Street View Tour"
          (String.intercalate "\n" ["<h1>A</h1>", "<p>B</p>"])) :: [] ∧
      (∃ p q, htmlTemplate "Street View Tour"
          (String.intercalate "\n" ["<h1>A</h1>", "<p>B</p>"]) =
        p ++ String.intercalate "\n" ["<h1>A</h1>", "<p>B</p>"] ++ q) ∧
      (create_html_page ((normHtmlFilename "tour",
          htmlTemplate "Street View Tour"
            (String.intercalate "\n" ["<h1>A</h1>", "<p>B</p>"])) :: [])
          ["<h1>A</h1>", "<p>B</p>"] "tour" "Street View Tour").result =
        .error (.alreadyExists (normHtmlFilename "tour")) ∧
      (create_html_page ((normHtmlFilename "tour",
          htmlTemplate "Street View Tour"
            (String.intercalate "\n" ["<h1>A</h1>", "<p>B</p>"])) :: [])
          ["<h1>A</h1>", "<p>B</p>"] "tour" "Street View Tour").fs =
        (normHtmlFilename "tour", htmlTemplate "Street View Tour"
          (String.intercalate "\n" ["<h1>A</h1>", "<p>B</p>"])) :: []) :=
  ⟨rfl, c7_create_html_page [] ["<h1>A</h1>", "<p>B</p>"] "tour"
    "Street View Tour" rfl⟩

/-- C8 counterexample: with zero location flags — an InvalidInput case the
claim says exits with code 1 — `argparse` rejects the command line and the
process exits with status 2, not 1. -/
theorem c8_counterexample_no_flag_exits_2 :
    (cli_main [] (fun _ => ⟨200, "image/jpeg", [1]⟩) "k"
      ⟨none, none, none, "street_view.jpg", "600x400", 0, 0, 90, 50, "default",
        false, false⟩).1 = 2 ∧
    (cli_main [] (fun _ => ⟨200, "image/jpeg", [1]⟩) "k"
      ⟨none, none, none, "street_view.jpg", "600x400", 0, 0, 90, 50, "default",
        false, false⟩).1 ≠ 1 :=
  ⟨rfl, by decide⟩

/-- C8 (amended): the CLI exits with code 0 when the requested operation
succeeds and 1 for any error raised during the operation (malformed
coordinate string, upstream failure), but zero or multiple mutually-exclusive
location flags are rejected by the argument parser itself with exit code 2,
before the operation starts. -/
theorem c8_cli_exit_codes (fs : FS) (http : Params → HttpResponse)
    (api_key : String) (a : CliArgs) :
    (cliFlagCount a ≠ 1 → (cli_main fs http api_key a).1 = 2) ∧
    (cliFlagCount a = 1 →
      ((∃ fs2, cli_body fs http api_key a = .ok fs2) →
        (cli_main fs http api_key a).1 = 0) ∧
      ((∃ e, cli_body fs http api_key a = .error e) →
        (cli_main fs http api_key a).1 = 1)) := by
  constructor
  · intro h
    simp [cli_main, cli_parse_args, h]
  · intro h
    constructor
    · rintro ⟨fs2, hb⟩
      simp [cli_main, cli_parse_args, h, hb]
    · rintro ⟨e, hb⟩
      simp [cli_main, cli_parse_args, h, hb]

/-- C8 witness: a successful concrete image fetch exits 0, and a malformed
`--latlong` string exits 1. -/
theorem c8_cli_exit_codes_witness :
    (cli_main [] (fun _ => ⟨200, "image/jpeg", [1]⟩) "k"
      ⟨some "Empire State Building", none, none, "out.jpg", "600x400", 0, 0,
        90, 50, "default", false, false⟩).1 = 0 ∧
    (cli_main [] (fun _ => ⟨200, "image/jpeg", [1]⟩) "k"
      ⟨none, some "abc,def", none, "out.jpg", "600x400", 0, 0, 90, 50,
        "default", false, false⟩).1 = 1 :=
  ⟨((c8_cli_exit_codes [] (fun _ => ⟨200, "image/jpeg", [1]⟩) "k"
      ⟨some "Empire State Building", none, none, "out.jpg", "600x400", 0, 0,
        90, 50, "default", false, false⟩).2 rfl).1 ⟨[("out.jpg", [1])], rfl⟩,
   ((c8_cli_exit_codes [] (fun _ => ⟨200, "image/jpeg", [1]⟩) "k"
      ⟨none, some "abc,def", none, "out.jpg", "600x400", 0, 0, 90, 50,
        "default", false, false⟩).2 rfl).2
      ⟨.invalidInput "Invalid latitude,longitude format. Use format: 40.714728,-73.998672",
        by decide⟩⟩

/-- C9: with exactly one specifier supplied but equal to the empty string,
the exactly-one validation passes and one request is issued, yet its
parameter map contains neither a `location` nor a `pano` key; in particular
for `pano_id = ""` the `radius` parameter is retained rather than dropped.
This holds for the image fetch and for the metadata fetch. -/
theorem c9_empty_string_specifier (http : Params → HttpResponse)
    (api_key size : String) (heading pitch fov radius : Int) (source : String)
    (rc : Bool) (mradius : Int) (msource : String) :
    (get_street_view_image http api_key (some "") none none size heading pitch
        fov radius source rc).requests.map keys =
      [["size", "heading", "pitch", "fov", "radius", "source",
        "return_error_code", "key"]] ∧
    (get_street_view_image http api_key none none (some "") size heading pitch
        fov radius source rc).requests.map keys =
      [["size", "heading", "pitch", "fov", "radius", "source",
        "return_error_code", "key"]] ∧
    (get_panorama_metadata http api_key (some "") none none mradius
        msource).requests.map keys = [["radius", "source", "key"]] ∧
    (get_panorama_metadata http api_key none none (some "") mradius
        msource).requests.map keys = [["radius", "source", "key"]] ∧
    "location" ∉ ["size", "heading", "pitch", "fov", "radius", "source",
      "return_error_code", "key"] ∧
    "pano" ∉ ["size", "heading", "pitch", "fov", "radius", "source",
      "return_error_code", "key"] ∧
    "radius" ∈ ["size", "heading", "pitch", "fov", "radius", "source",
      "return_error_code", "key"] ∧
    "location" ∉ ["radius", "source", "key"] ∧
    "pano" ∉ ["radius", "source", "key"] ∧
    "radius" ∈ ["radius", "source", "key"] :=
  ⟨rfl, rfl, rfl, rfl, by decide, by decide, by decide, by decide, by decide,
    by decide⟩

/-- C10: for every `get_street_view` tool call whose inputs pass coordinate
parsing, the keyword call to `get_street_view_image` includes `filename`,
which the callee does not accept, so the call raises TypeError before any
outbound request or file write, and the tool never returns an image. -/
theorem c10_filename_kwarg_type_error (fs : FS) (http : Params → HttpResponse)
    (api_key filename : String) (location lat_lng pano_id : Option String)
    (size : String) (heading pitch fov radius : Int) (source : String)
    (h : truthyOptStr lat_lng = true →
      ∃ a b, parseLatLng (lat_lng.getD "") = .ok (a, b)) :
    (server_get_street_view fs http api_key filename location lat_lng pano_id
        size heading pitch fov radius source).result =
      .error (.typeError
        "get_street_view_image got an unexpected keyword argument filename") ∧
    (server_get_street_view fs http api_key filename location lat_lng pano_id
        size heading pitch fov radius source).requests = [] ∧
    (server_get_street_view fs http api_key filename location lat_lng pano_id
        size heading pitch fov radius source).fs = fs := by
  have hkw : ¬ ∀ x ∈ server_call_kwargs, x ∈ get_street_view_image_kwargs := by
    decide
  cases ht : truthyOptStr lat_lng
  · simp [server_get_street_view, ht, hkw]
  · obtain ⟨a, b, hab⟩ := h ht
    simp [server_get_street_view, ht, hab, hkw, Except.map]

/-- C10 witness: concrete inputs with a well-formed coordinate string. -/
theorem c10_filename_kwarg_type_error_witness :
    (server_get_street_view [] (fun _ => ⟨200, "image/jpeg", [1]⟩) "k"
        "empire.jpg" none (some "1.5,2.5") none "600x400" 0 0 90 50
        "default").result =
      .error (.typeError
        "get_street_view_image got an unexpected keyword argument filename") ∧
    (server_get_street_view [] (fun _ => ⟨200, "image/jpeg", [1]⟩) "k"
        "empire.jpg" none (some "1.5,2.5") none "600x400" 0 0 90 50
        "default").requests = [] ∧
    (server_get_street_view [] (fun _ => ⟨200, "image/jpeg", [1]⟩) "k"
        "empire.jpg" none (some "1.5,2.5") none "600x400" 0 0 90 50
        "default").fs = [] :=
  c10_filename_kwarg_type_error [] (fun _ => ⟨200, "image/jpeg", [1]⟩) "k"
    "empire.jpg" none (some "1.5,2.5") none "600x400" 0 0 90 50 "default"
    (fun _ => ⟨.finite 15 (-1), .finite 25 (-1), by decide⟩)

end StreetViewMcp
